import Mathlib

set_option maxRecDepth 4000

/-!
Verification of the core request/response pipeline of the Geminary desktop
chat client.

The development shallowly embeds the parts of the program that the stated
properties talk about:

* `core/gemini_api.py` — the provider client (`send_query`, `list_models`,
  `configure_genai` and the module-level `_genai_configured` flag);
* `core/db_manager.py` — the history store (`add_message`, `get_history`,
  `clear_history`);
* `ui/main_window.py` — the worker thread (`Worker.run` with its liveness
  flag) and the controller slots (`send_message`, `handle_response`,
  `handle_api_error`).

Python strings are modelled by Lean `String`; the handful of Python string
operations the code uses (`strip`, `startswith`, `split`, `replace`,
`"".join`, `", ".join`) are given executable models over `String.data` so
that every definition evaluates by kernel reduction.  External effects
(the network call, sqlite, the wall clock) are passed in as explicit
arguments, as usual for a shallow embedding of I/O code.
-/

namespace Geminary

/-! ### Models of the Python string operations used by the code -/

/-- Model of Python `s.startswith(p)`: `p.data` is a list prefix of `s.data`. -/
def pyStartsWith (s p : String) : Bool :=
  List.isPrefixOf p.data s.data

/-- Characters Python `str.strip()` removes (the ASCII whitespace set:
space, tab, newline, carriage return, vertical tab, form feed). -/
def pySpaceChar (c : Char) : Bool :=
  c = ' ' || c = '\t' || c = '\n' || c = '\r' || c = '\x0b' || c = '\x0c'

/-- Model of Python `s.strip()`: drop leading and trailing whitespace. -/
def pyStrip (s : String) : String :=
  ⟨((s.data.dropWhile pySpaceChar).reverse.dropWhile pySpaceChar).reverse⟩

/-- Model of Python `"".join(parts)`: concatenation in order. -/
def pyConcat : List String → String
  | [] => ""
  | x :: xs => x ++ pyConcat xs

/-- Model of Python `", ".join(parts)`. -/
def pyJoinComma : List String → String
  | [] => ""
  | [x] => x
  | x :: xs => x ++ ", " ++ pyJoinComma xs

/-- Helper for `pySplitComma`: accumulates the current fragment (reversed)
and splits at every `','`, exactly like Python `s.split(',')` which always
yields one more fragment than there are separators. -/
def splitCommaAux : List Char → List Char → List (List Char)
  | [], acc => [acc.reverse]
  | c :: rest, acc =>
    if c = ',' then acc.reverse :: splitCommaAux rest []
    else splitCommaAux rest (c :: acc)

/-- Model of Python `s.split(',')`. -/
def pySplitComma (s : String) : List String :=
  (splitCommaAux s.data []).map (fun l => ⟨l⟩)

/-- Helper for `pyReplace`, structurally recursive on a fuel argument that
starts at the length of the string (each step consumes at least one
character, so the fuel never runs out). -/
def pyReplaceAux (pat repl : List Char) : Nat → List Char → List Char
  | _, [] => []
  | 0, l => l
  | fuel + 1, c :: rest =>
    if pat.isEmpty = false && List.isPrefixOf pat (c :: rest) then
      repl ++ pyReplaceAux pat repl fuel (List.drop (pat.length - 1) rest)
    else
      c :: pyReplaceAux pat repl fuel rest

/-- Model of Python `s.replace(pat, repl)` for a non-empty pattern:
every occurrence of `pat` is replaced by `repl`, scanning left to right. -/
def pyReplace (s pat repl : String) : String :=
  ⟨pyReplaceAux pat.data repl.data s.data.length s.data⟩

/-- Code-point comparison of strings as lists of characters: the order
Python uses for `sorted` on `str` (lexicographic on code points). -/
def lexLe : List Char → List Char → Bool
  | [], _ => true
  | _ :: _, [] => false
  | a :: as, b :: bs =>
    if a.toNat < b.toNat then true
    else if b.toNat < a.toNat then false
    else lexLe as bs

/-- Model of Python string `<=` (used through `sorted`). -/
def strLeB (a b : String) : Bool :=
  lexLe a.data b.data

/-- Insertion step of an insertion sort parameterised by a boolean
comparison; used to model both Python `sorted` (in `list_models`) and the
SQL `ORDER BY timestamp DESC` of `get_history`. -/
def insertLe {α : Type} (le : α → α → Bool) (a : α) : List α → List α
  | [] => [a]
  | b :: l => if le a b then a :: b :: l else b :: insertLe le a l

/-- Insertion sort by a boolean comparison (stable, like Python `sorted`). -/
def sortLe {α : Type} (le : α → α → Bool) (l : List α) : List α :=
  l.foldr (insertLe le) []

/-! ### Data carried by a provider response (`google.generativeai` response
object, as accessed by `core/gemini_api.py`) -/

/-- One safety rating as read by the code: `rating.category.name` and
`rating.probability.name`. -/
structure SafetyRatingR where
  category : String
  probability : String
deriving DecidableEq

/-- The `response.prompt_feedback` object: `block_reason` is `none` when the
attribute is falsy (no block), and the list of safety ratings. -/
structure PromptFeedbackR where
  blockReason : Option String
  safetyRatings : List SafetyRatingR
deriving DecidableEq

/-- One `response.candidates` entry as read by the code:
`finish_reason.name` and `safety_ratings`. -/
structure CandidateR where
  finishReason : String
  safetyRatings : List SafetyRatingR
deriving DecidableEq

/-- A provider response as accessed by `send_query`
(`core/gemini_api.py:95-127`): `parts` holds the `part.text` of each entry
of `response.parts`; `promptFeedback` is `none` when `response.prompt_feedback`
is falsy; `text` models the `response.text` accessor used in the
`MAX_TOKENS` branch. -/
structure GResponse where
  parts : List String
  promptFeedback : Option PromptFeedbackR
  candidates : List CandidateR
  text : String
deriving DecidableEq

/-- Truthiness of `response.prompt_feedback and response.prompt_feedback.block_reason`
(`core/gemini_api.py:98`). -/
def GResponse.hasBlockReasonB (r : GResponse) : Bool :=
  match r.promptFeedback with
  | some pf => pf.blockReason.isSome
  | none => false

/-- The `response.prompt_feedback.block_reason.name` read on line 99
(meaningful only when `hasBlockReasonB`). -/
def GResponse.blockReasonName (r : GResponse) : String :=
  match r.promptFeedback with
  | some pf => pf.blockReason.getD ""
  | none => ""

/-- The `response.prompt_feedback.safety_ratings` read on lines 103-105. -/
def GResponse.feedbackRatings (r : GResponse) : List SafetyRatingR :=
  match r.promptFeedback with
  | some pf => pf.safetyRatings
  | none => []

/-- The string appended in the `MAX_TOKENS` branch (`core/gemini_api.py:114`). -/
def truncationMarker : String :=
  "\n[... Output truncated due to length limit ...]"

/-- The catch-all return value of `send_query` (`core/gemini_api.py:127`). -/
def emptyResponseText : String :=
  "Error: Received an empty or unexpected response from the API."

/-- The `detail_str` built from a list of safety ratings
(`core/gemini_api.py:102-106` and `117-121`): empty when there are no
ratings, otherwise `" (cat: prob, ...)"`. -/
def safetyDetailStr (rs : List SafetyRatingR) : String :=
  if rs.isEmpty then ""
  else " (" ++ pyJoinComma (rs.map (fun r => r.category ++ ": " ++ r.probability)) ++ ")"

/-- The string `send_query` returns for a response object, translated
branch by branch from `core/gemini_api.py:95-127`:
content parts first, then a prompt-feedback block reason, then an abnormal
finish reason of the first candidate (`MAX_TOKENS` returning
`response.text` plus the truncation marker, anything else an error string),
else the catch-all empty-response error. -/
def classifyResponse (r : GResponse) : String :=
  if r.parts.isEmpty = false then
    pyConcat r.parts
  else if r.hasBlockReasonB then
    "Error: Content blocked by API due to " ++ r.blockReasonName ++
      safetyDetailStr r.feedbackRatings ++ ". Please modify your prompt."
  else
    match r.candidates with
    | c :: _ =>
      if c.finishReason = "STOP" then emptyResponseText
      else if c.finishReason = "MAX_TOKENS" then r.text ++ truncationMarker
      else
        "Error: Response generation stopped due to " ++ c.finishReason ++
          safetyDetailStr c.safetyRatings ++ "."
    | [] => emptyResponseText

/-! ### The Outcome abstraction

The specification describes the result of `send_query` as a tagged union
`Outcome`.  `classifyResponseOutcome` tags the branch of
`core/gemini_api.py:95-127` that fires, and `renderOutcome` maps each tag
to the exact string the source returns; `classifyResponse_eq_render`
proves that the two views of the same source code agree. -/

/-- Failure kinds of the Failure variant of the specification. -/
inductive FailureKind where
  | network
  | auth
  | quota
  | unexpected
deriving DecidableEq

/-- The `Outcome` tagged union of the specification, with the payloads the code
actually computes in each branch. -/
inductive Outcome where
  | success (text : String)
  | blocked (reason : String) (ratings : List SafetyRatingR)
  | stopped (reason : String) (ratings : List SafetyRatingR) (truncatedText : Option String)
  | failure (kind : FailureKind) (message : String)
deriving DecidableEq

/-- Whether an `Outcome` is the `success` variant. -/
def Outcome.isSuccess : Outcome → Bool
  | .success _ => true
  | _ => false

/-- Whether an `Outcome` is the `blocked` variant. -/
def Outcome.isBlocked : Outcome → Bool
  | .blocked _ _ => true
  | _ => false

/-- Whether an `Outcome` is the `stopped` variant. -/
def Outcome.isStopped : Outcome → Bool
  | .stopped _ _ _ => true
  | _ => false

/-- The branch of `core/gemini_api.py:95-127` that fires for a response,
as an `Outcome` tag (same branch structure as `classifyResponse`). -/
def classifyResponseOutcome (r : GResponse) : Outcome :=
  if r.parts.isEmpty = false then
    .success (pyConcat r.parts)
  else if r.hasBlockReasonB then
    .blocked r.blockReasonName r.feedbackRatings
  else
    match r.candidates with
    | c :: _ =>
      if c.finishReason = "STOP" then .failure .unexpected emptyResponseText
      else if c.finishReason = "MAX_TOKENS" then
        .stopped "MAX_TOKENS" c.safetyRatings (some (r.text ++ truncationMarker))
      else .stopped c.finishReason c.safetyRatings none
    | [] => .failure .unexpected emptyResponseText

/-- The exact string `core/gemini_api.py` returns for each `Outcome` tag
produced by `classifyResponseOutcome`. -/
def renderOutcome : Outcome → String
  | .success t => t
  | .blocked reason rs =>
    "Error: Content blocked by API due to " ++ reason ++ safetyDetailStr rs ++
      ". Please modify your prompt."
  | .stopped _ _ (some p) => p
  | .stopped reason rs none =>
    "Error: Response generation stopped due to " ++ reason ++ safetyDetailStr rs ++ "."
  | .failure _ m => m

theorem classifyResponse_eq_render (r : GResponse) :
    classifyResponse r = renderOutcome (classifyResponseOutcome r) := by
  unfold classifyResponse classifyResponseOutcome
  by_cases hp : r.parts.isEmpty = false
  · simp [hp, renderOutcome]
  · by_cases hb : r.hasBlockReasonB
    · simp [hp, hb, renderOutcome]
    · simp only [hp, hb, if_false, if_true, Bool.false_eq_true]
      cases r.candidates with
      | nil => simp [renderOutcome]
      | cons c cs =>
        by_cases h1 : c.finishReason = "STOP"
        · simp [h1, renderOutcome]
        · by_cases h2 : c.finishReason = "MAX_TOKENS" <;> simp [h1, h2, renderOutcome]

/-! ### Exceptions and the provider client (`core/gemini_api.py`) -/

/-- The Python exceptions relevant to the `try` block of `send_query`, plus the
`NameError` that evaluation of an unresolvable `except` clause raises. -/
inductive PyExc where
  | requestException (detail : String)
  | permissionDenied (detail : String)
  | resourceExhausted (detail : String)
  | otherError (tyName detail : String)
  | nameError (missing : String)
deriving DecidableEq

/-- Python `type(e).__name__` for the modelled exceptions. -/
def PyExc.typeName : PyExc → String
  | .requestException _ => "RequestException"
  | .permissionDenied _ => "PermissionDenied"
  | .resourceExhausted _ => "ResourceExhausted"
  | .otherError t _ => t
  | .nameError _ => "NameError"

/-- Python `str(e)` for the modelled exceptions. -/
def PyExc.detailStr : PyExc → String
  | .requestException d => d
  | .permissionDenied d => d
  | .resourceExhausted d => d
  | .otherError _ d => d
  | .nameError n => "name \x27" ++ n ++ "\x27 is not defined"

/-- One `except` clause: the module-level name its exception expression
starts with (`none` for the builtin `Exception`), which exceptions it
matches, and its handler (which may update `_genai_configured` and returns
the string the handler returns). -/
structure PyExceptClause where
  rootName : Option String
  matchesExc : PyExc → Bool
  runHandler : Bool → PyExc → Bool × String

/-- The names bound at module level of `core/gemini_api.py` by its import
statements: `import google.generativeai as genai` binds only `genai`,
`import requests.exceptions` binds `requests`, `import time` binds `time`,
and `from . import config_manager` binds `config_manager`.  In particular
`google` is NOT bound. -/
def geminiApiModuleNames : List String :=
  ["genai", "requests", "time", "config_manager"]

/-- CPython semantics of an `except` chain: clauses are tried in order; for
each clause the exception expression is evaluated first — if its root name
is unbound at module level this raises a `NameError` which replaces the
in-flight exception and propagates (later clauses of the same `try` are
not consulted) — then the type test selects the handler.  An unmatched
exception propagates. -/
def runExceptClauses : List PyExceptClause → Bool → PyExc → Bool × Except PyExc String
  | [], configured, e => (configured, .error e)
  | c :: rest, configured, e =>
    match c.rootName with
    | some n =>
      if geminiApiModuleNames.contains n then
        if c.matchesExc e then
          let r := c.runHandler configured e
          (r.1, .ok r.2)
        else runExceptClauses rest configured e
      else (configured, .error (.nameError n))
    | none =>
      if c.matchesExc e then
        let r := c.runHandler configured e
        (r.1, .ok r.2)
      else runExceptClauses rest configured e

/-- The four `except` clauses of `send_query` (`core/gemini_api.py:130-147`),
in source order:
`requests.exceptions.RequestException`,
`google.api_core.exceptions.PermissionDenied` (its handler clears
`_genai_configured`), `google.api_core.exceptions.ResourceExhausted`, and
the bare `Exception` catch-all. -/
def sendQueryClauses : List PyExceptClause :=
  [ { rootName := some "requests",
      matchesExc := fun e => match e with | .requestException _ => true | _ => false,
      runHandler := fun configured e =>
        (configured,
         "Network Error: Could not connect to API. Check your internet connection. Details: "
           ++ e.detailStr) },
    { rootName := some "google",
      matchesExc := fun e => match e with | .permissionDenied _ => true | _ => false,
      runHandler := fun _ _ =>
        (false,
         "Error: Invalid API Key or insufficient permissions. Please check settings. Details: API key not valid.") },
    { rootName := some "google",
      matchesExc := fun e => match e with | .resourceExhausted _ => true | _ => false,
      runHandler := fun configured _ =>
        (configured,
         "Error: API Quota Exceeded. Please check your usage limits or wait and try again.") },
    { rootName := none,
      matchesExc := fun _ => true,
      runHandler := fun configured e =>
        (configured,
         "API Error: An unexpected error occurred (" ++ e.typeName ++
           "). Check logs for details. Message: " ++ e.detailStr) } ]

/-- The configuration values `core/gemini_api.py` reads through
`config_manager.get_setting`. -/
structure AppConfig where
  apiKey : String
  availableModels : String
deriving DecidableEq

/-- Model of `configure_genai` (`core/gemini_api.py:24-40`): result is the
new `_genai_configured` flag paired with the boolean return value.
`configureOk` models whether `genai.configure` raises. -/
def configure_genai (cfg : AppConfig) (configureOk : Bool) : Bool × Bool :=
  if cfg.apiKey.data.isEmpty then (false, false)
  else if configureOk then (true, true)
  else (false, false)

/-- The `try` body and `except` chain of `send_query`
(`core/gemini_api.py:83-147`): `call` models what
`model.generate_content(prompt)` does — return a response or raise.
Result: new `_genai_configured` flag, and either the returned string or an
exception that propagates out of `send_query`. -/
def sendQueryTry (configured : Bool) (call : Except PyExc GResponse) :
    Bool × Except PyExc String :=
  match call with
  | .ok r => (configured, .ok (classifyResponse r))
  | .error e => runExceptClauses sendQueryClauses configured e

/-- Model of `send_query` (`core/gemini_api.py:76-147`).  `configured` is
the module-level `_genai_configured` flag on entry, `configureOk` models
whether `genai.configure` would succeed, and `call` models the provider
call.  The `prompt` and `modelName` arguments are carried for fidelity to
the source signature.  Result: new flag and returned string or
propagating exception. -/
def send_query (configured : Bool) (cfg : AppConfig) (configureOk : Bool)
    (prompt modelName : String) (call : Except PyExc GResponse) :
    Bool × Except PyExc String :=
  if configured = false then
    match configure_genai cfg configureOk with
    | (c2, false) => (c2, .ok "Error: API Key not configured or invalid.")
    | (c2, true) => sendQueryTry c2 call
  else sendQueryTry configured call

/-- One model record of `genai.list_models()` as read by `list_models`:
its `name` and `supported_generation_methods`. -/
structure GModel where
  name : String
  supportedGenerationMethods : List String
deriving DecidableEq

/-- The `models_cache` computed on a successful fetch
(`core/gemini_api.py:55-57`): keep models that support `generateContent`
and whose name starts with `models/gemini-`, strip the `models/` prefix,
and sort ascending. -/
def geminiModelCache (ms : List GModel) : List String :=
  sortLe strLeB
    ((ms.filter (fun m =>
        m.supportedGenerationMethods.contains "generateContent"
          && pyStartsWith m.name "models/gemini-")).map
      (fun m => pyReplace m.name "models/" ""))

/-- The `try`/`except` part of `list_models` (`core/gemini_api.py:48-73`):
on a successful fetch, the filtered sorted cache or an error placeholder if
it is empty; on any exception, the comma-split configured fallback list,
replaced by the hardcoded default when empty, with a final error
placeholder guard. -/
def listModelsFetch (cfg : AppConfig) (fetch : Except PyExc (List GModel)) :
    List String :=
  match fetch with
  | .ok ms =>
    let cache := geminiModelCache ms
    if cache.isEmpty then ["Error: No suitable Gemini models found"] else cache
  | .error _ =>
    let fallback :=
      if cfg.availableModels.data.isEmpty then [] else pySplitComma cfg.availableModels
    let fallback2 :=
      if fallback.isEmpty then ["gemini-1.5-flash-latest"] else fallback
    if fallback2.isEmpty then ["Error: Could not fetch models and no fallback available"]
    else fallback2

/-- Model of `list_models` (`core/gemini_api.py:42-73`): result is the new
`_genai_configured` flag and the returned list. -/
def list_models (configured : Bool) (cfg : AppConfig) (configureOk : Bool)
    (fetch : Except PyExc (List GModel)) : Bool × List String :=
  if configured = false then
    match configure_genai cfg configureOk with
    | (c2, false) => (c2, ["Error: API Key not configured or invalid"])
    | (c2, true) => (c2, listModelsFetch cfg fetch)
  else (configured, listModelsFetch cfg fetch)

/-! ### The history store (`core/db_manager.py`)

The sqlite `messages` table is modelled as a list of rows in insertion
order together with a clock supplying the strictly increasing
`datetime.datetime.now()` timestamps that `add_message` inserts.  Each
operation takes a `dbError` argument modelling whether the underlying
sqlite call raises `sqlite3.Error`; the `some` case is that operation
`except sqlite3.Error` branch. -/

/-- One row of the `messages` table: timestamp, role, content, model_used. -/
structure HistRec where
  ts : Nat
  role : String
  content : String
  modelUsed : Option String
deriving DecidableEq

/-- The history database: rows in insertion order plus the clock. -/
structure HistoryDB where
  clock : Nat
  rows : List HistRec
deriving DecidableEq

/-- Model of `add_message` (`core/db_manager.py:56-72`): inserts one row
with the current timestamp and commits; on `sqlite3.Error` the error is
printed and the store is unchanged (nothing was committed). -/
def add_message (db : HistoryDB) (role content : String) (modelUsed : Option String)
    (dbError : Option String) : HistoryDB :=
  match dbError with
  | some _ => db
  | none =>
    { clock := db.clock + 1
      rows := db.rows ++ [⟨db.clock, role, content, modelUsed⟩] }

/-- The comparison realising `ORDER BY timestamp DESC`. -/
def tsDescLe (a b : HistRec) : Bool :=
  decide (b.ts ≤ a.ts)

/-- Model of `get_history` (`core/db_manager.py:74-97`): select rows
ordered by timestamp descending, `LIMIT limit`, then reverse in Python to
chronological order; on `sqlite3.Error` return the empty list. -/
def get_history (db : HistoryDB) (limit : Nat) (dbError : Option String) :
    List HistRec :=
  match dbError with
  | some _ => []
  | none => ((sortLe tsDescLe db.rows).take limit).reverse

/-- Model of `clear_history` (`core/db_manager.py:100-118`): delete all
rows and return `true`; on `sqlite3.Error` return `false` with the store
unchanged (nothing committed). -/
def clear_history (db : HistoryDB) (dbError : Option String) : HistoryDB × Bool :=
  match dbError with
  | some _ => (db, false)
  | none => ({ db with rows := [] }, true)

/-- One `add_message` request (role, content, model_used). -/
structure MsgIn where
  role : String
  content : String
  modelUsed : Option String
deriving DecidableEq

/-- A sequence of successful `add_message` calls applied to the freshly
initialised (empty) database. -/
def applyAppends (ops : List MsgIn) : HistoryDB :=
  ops.foldl (fun db m => add_message db m.role m.content m.modelUsed none) ⟨0, []⟩

/-! ### Worker thread and controller (`ui/main_window.py`) -/

/-- A signal emitted by the worker: `response_ready` or `error_occurred`. -/
inductive Emission where
  | response (text : String)
  | errorSig (message : String)
deriving DecidableEq

/-- Model of `Worker.run` (`ui/main_window.py:53-64`): the liveness flag
`_is_running` is read once immediately before starting the call
(`aliveAtStart`) and once immediately before emitting (`aliveAtDeliver`);
these reads are inputs because `stop()` may clear the flag concurrently.
If the first read is false nothing runs; the result of the provider call is
emitted as `response_ready`, an escaping exception as `error_occurred`,
and either emission is suppressed when the second read is false. -/
def workerRun (aliveAtStart aliveAtDeliver : Bool) (configured : Bool)
    (cfg : AppConfig) (configureOk : Bool) (prompt modelName : String)
    (call : Except PyExc GResponse) : Bool × Option Emission :=
  if aliveAtStart = false then (configured, none)
  else
    match send_query configured cfg configureOk prompt modelName call with
    | (c2, .ok s) =>
      (c2, if aliveAtDeliver then some (.response s) else none)
    | (c2, .error e) =>
      (c2,
       if aliveAtDeliver then
         some (.errorSig ("Worker thread error: " ++ e.typeName ++ ": " ++ e.detailStr))
       else none)

/-- The controller state the claims talk about: the visible transcript
(role, text) entries of the chat display, the persistent history store,
and `self.current_model`. -/
structure UiState where
  transcript : List (String × String)
  db : HistoryDB
  currentModel : Option String
deriving DecidableEq

/-- Model of `add_message_to_display` (`ui/main_window.py:415-450`): append
one (role, text) entry to the visible transcript. -/
def add_message_to_display (ui : UiState) (role text : String) : UiState :=
  { ui with transcript := ui.transcript ++ [(role, text)] }

/-- Model of `handle_api_error` (`ui/main_window.py:530-536`): append an
error-role entry to the visible transcript only — the persistence call is
commented out in the source. -/
def handle_api_error (ui : UiState) (errorMessage : String) : UiState :=
  add_message_to_display ui "error" errorMessage

/-- Model of `handle_response` (`ui/main_window.py:518-527`): a response
string starting with `"Error:"` or `"Blocked:"` is routed to
`handle_api_error`; anything else is displayed as a model message and
persisted to history with the current model name. -/
def handle_response (ui : UiState) (responseText : String) (dbError : Option String) :
    UiState :=
  if pyStartsWith responseText "Error:" || pyStartsWith responseText "Blocked:" then
    handle_api_error ui responseText
  else
    let ui2 := add_message_to_display ui "model" responseText
    { ui2 with db := add_message ui2.db "model" responseText ui.currentModel dbError }

/-- Delivery of a worker emission on the UI thread: `response_ready` is
connected to `handle_response`, `error_occurred` to `handle_api_error`
(`ui/main_window.py:505-506`); no emission means no slot runs. -/
def deliverEmission (ui : UiState) (em : Option Emission) (dbError : Option String) :
    UiState :=
  match em with
  | none => ui
  | some (.response s) => handle_response ui s dbError
  | some (.errorSig s) => handle_api_error ui s

/-- The observable result of one `send_message` call: the controller state
after the call, the `_genai_configured` flag, the (prompt, model) handed to
a newly started `Worker` (`none` when no worker was started, i.e. the
lifecycle stayed Idle), and whether a validation message box was shown. -/
structure SendResult where
  ui : UiState
  configured : Bool
  dispatched : Option (String × String)
  warned : Bool
deriving DecidableEq

/-- The post-validation part of `send_message` (`ui/main_window.py:486-509`):
display the user message, persist it as a `user` history record (no model),
and start a worker for (stripped input, current model). -/
def sendDispatch (ui : UiState) (configured : Bool) (userInput : String) : SendResult :=
  let ui2 := add_message_to_display ui "user" userInput
  let ui3 := { ui2 with db := add_message ui2.db "user" userInput none none }
  { ui := ui3
    configured := configured
    dispatched := some (userInput, (match ui.currentModel with | some m => m | none => ""))
    warned := false }

/-- Truthiness of `not self.current_model or self.current_model.startswith("Error:")`
(`ui/main_window.py:476`). -/
def modelInvalid : Option String → Bool
  | none => true
  | some m => m.data.isEmpty || pyStartsWith m "Error:"

/-- Model of `send_message` (`ui/main_window.py:470-509`): strip the input
and return with no effect when empty; warn when the selected model is
missing or an error placeholder; attempt credential configuration inline
when unconfigured, warning on failure; otherwise persist the user record
and dispatch a worker. -/
def send_message (ui : UiState) (configured : Bool) (cfg : AppConfig)
    (configureOk : Bool) (rawInput : String) : SendResult :=
  let userInput := pyStrip rawInput
  if userInput.data.isEmpty then
    { ui := ui, configured := configured, dispatched := none, warned := false }
  else if modelInvalid ui.currentModel then
    { ui := ui, configured := configured, dispatched := none, warned := true }
  else if configured then sendDispatch ui configured userInput
  else
    match configure_genai cfg configureOk with
    | (c2, true) => sendDispatch ui c2 userInput
    | (c2, false) => { ui := ui, configured := c2, dispatched := none, warned := true }

/-! ### Helper lemmas -/

theorem mem_insertLe {α : Type} (le : α → α → Bool) (a x : α) :
    ∀ l : List α, x ∈ insertLe le a l → x = a ∨ x ∈ l
  | [], h => by simpa [insertLe] using h
  | b :: l, h => by
    unfold insertLe at h
    split at h
    · rcases List.mem_cons.mp h with h | h
      · exact Or.inl h
      · exact Or.inr h
    · rcases List.mem_cons.mp h with h | h
      · exact Or.inr (List.mem_cons.mpr (Or.inl h))
      · rcases mem_insertLe le a x l h with h | h
        · exact Or.inl h
        · exact Or.inr (List.mem_cons.mpr (Or.inr h))

theorem insertLe_append {α : Type} (le : α → α → Bool) (a : α) :
    ∀ l : List α, (∀ x ∈ l, le a x = false) → insertLe le a l = l ++ [a]
  | [], _ => rfl
  | b :: l, h => by
    unfold insertLe
    rw [if_neg, insertLe_append le a l (fun x hx => h x (by simp [hx]))]
    · simp
    · simp [h b (by simp)]

theorem pairwise_insertLe {α : Type} {le : α → α → Bool}
    (total : ∀ a b, le a b = false → le b a = true)
    (htrans : ∀ a b c, le a b = true → le b c = true → le a c = true) (a : α) :
    ∀ l : List α, l.Pairwise (fun x y => le x y = true) →
      (insertLe le a l).Pairwise (fun x y => le x y = true)
  | [], _ => by simp [insertLe]
  | b :: l, h => by
    unfold insertLe
    rcases List.pairwise_cons.mp h with ⟨hb, hl⟩
    by_cases hab : le a b = true
    · rw [if_pos hab]
      refine List.pairwise_cons.mpr ⟨?_, h⟩
      intro x hx
      rcases List.mem_cons.mp hx with hx | hx
      · rw [hx]; exact hab
      · exact htrans a b x hab (hb x hx)
    · rw [if_neg hab]
      refine List.pairwise_cons.mpr ⟨?_, pairwise_insertLe total htrans a l hl⟩
      intro x hx
      rcases mem_insertLe le a x l hx with hx | hx
      · rw [hx]; exact total a b (by simpa using hab)
      · exact hb x hx

theorem pairwise_sortLe {α : Type} {le : α → α → Bool}
    (total : ∀ a b, le a b = false → le b a = true)
    (htrans : ∀ a b c, le a b = true → le b c = true → le a c = true) :
    ∀ l : List α, (sortLe le l).Pairwise (fun x y => le x y = true)
  | [] => by simp [sortLe]
  | a :: l => by
    have ih := pairwise_sortLe total htrans l
    simpa [sortLe] using pairwise_insertLe total htrans a (sortLe le l) ih

theorem lexLe_total : ∀ a b : List Char, lexLe a b = false → lexLe b a = true
  | [], _, h => by simp [lexLe] at h
  | _ :: _, [], _ => by simp [lexLe]
  | x :: xs, y :: ys, h => by
    simp only [lexLe] at h ⊢
    by_cases h1 : x.toNat < y.toNat
    · simp [h1] at h
    · by_cases h2 : y.toNat < x.toNat
      · simp [h2]
      · have h3 : ¬ x.toNat < y.toNat := h1
        simp [h1, h2] at h ⊢
        exact lexLe_total xs ys h

theorem lexLe_trans :
    ∀ a b c : List Char, lexLe a b = true → lexLe b c = true → lexLe a c = true
  | [], _, _, _, _ => by simp [lexLe]
  | _ :: _, [], _, hab, _ => by simp [lexLe] at hab
  | _ :: _, _ :: _, [], _, hbc => by simp [lexLe] at hbc
  | x :: xs, y :: ys, z :: zs, hab, hbc => by
    simp only [lexLe] at hab hbc ⊢
    by_cases h1 : x.toNat < y.toNat
    · by_cases h2 : y.toNat < z.toNat
      · rw [if_pos (by omega)]
      · by_cases h3 : z.toNat < y.toNat
        · rw [if_neg h2, if_pos h3] at hbc
          exact absurd hbc (by simp)
        · rw [if_pos (show x.toNat < z.toNat by omega)]
    · by_cases h2 : y.toNat < x.toNat
      · rw [if_neg h1, if_pos h2] at hab
        exact absurd hab (by simp)
      · rw [if_neg h1, if_neg h2] at hab
        by_cases h3 : y.toNat < z.toNat
        · rw [if_pos (show x.toNat < z.toNat by omega)]
        · by_cases h4 : z.toNat < y.toNat
          · rw [if_neg h3, if_pos h4] at hbc
            exact absurd hbc (by simp)
          · rw [if_neg h3, if_neg h4] at hbc
            rw [if_neg (show ¬ x.toNat < z.toNat by omega),
              if_neg (show ¬ z.toNat < x.toNat by omega)]
            exact lexLe_trans xs ys zs hab hbc

theorem strLeB_total (a b : String) (h : strLeB a b = false) : strLeB b a = true :=
  lexLe_total a.data b.data h

theorem strLeB_trans (a b c : String) (hab : strLeB a b = true) (hbc : strLeB b c = true) :
    strLeB a c = true :=
  lexLe_trans a.data b.data c.data hab hbc

theorem splitCommaAux_ne_nil : ∀ (l acc : List Char), splitCommaAux l acc ≠ []
  | [], acc => by simp [splitCommaAux]
  | c :: rest, acc => by
    unfold splitCommaAux
    split
    · simp
    · exact splitCommaAux_ne_nil rest (c :: acc)

theorem pySplitComma_ne_nil (s : String) : pySplitComma s ≠ [] := by
  unfold pySplitComma
  simp [splitCommaAux_ne_nil]

/-- Timestamps along `rows` are strictly increasing and bounded by the clock. -/
def tsSound (db : HistoryDB) : Prop :=
  db.rows.Pairwise (fun a b => a.ts < b.ts) ∧ ∀ x ∈ db.rows, x.ts < db.clock

theorem tsSound_add_message (db : HistoryDB) (role content : String)
    (modelUsed : Option String) (h : tsSound db) :
    tsSound (add_message db role content modelUsed none) := by
  rcases h with ⟨hp, hb⟩
  constructor
  · simp only [add_message]
    rw [List.pairwise_append]
    refine ⟨hp, by simp, ?_⟩
    intro a ha b hb2
    simp at hb2
    rw [hb2]
    exact hb a ha
  · intro x hx
    simp only [add_message] at hx ⊢
    rcases List.mem_append.mp hx with hx | hx
    · exact Nat.lt_succ_of_lt (hb x hx)
    · simp at hx
      rw [hx]
      exact Nat.lt_succ_self _

theorem tsSound_applyAppends (ops : List MsgIn) : tsSound (applyAppends ops) := by
  unfold applyAppends
  have general :
      ∀ (ops : List MsgIn) (db : HistoryDB), tsSound db →
        tsSound (ops.foldl (fun db m => add_message db m.role m.content m.modelUsed none) db) := by
    intro ops
    induction ops with
    | nil => intro db h; exact h
    | cons m rest ih =>
      intro db h
      exact ih _ (tsSound_add_message db m.role m.content m.modelUsed h)
  exact general ops ⟨0, []⟩ ⟨by simp, by simp⟩

theorem sortLe_tsDesc_of_pairwise :
    ∀ rows : List HistRec, rows.Pairwise (fun a b => a.ts < b.ts) →
      sortLe tsDescLe rows = rows.reverse
  | [], _ => rfl
  | a :: rows, h => by
    rcases List.pairwise_cons.mp h with ⟨ha, hrows⟩
    have ih := sortLe_tsDesc_of_pairwise rows hrows
    simp only [sortLe, List.foldr] at ih ⊢
    rw [ih, insertLe_append, List.reverse_cons]
    intro x hx
    have hmem : x ∈ rows := List.mem_reverse.mp hx
    simp [tsDescLe]
    exact ha x hmem

theorem reverse_take_reverse {α : Type} (l : List α) (n : Nat) :
    (l.reverse.take n).reverse = l.drop (l.length - n) := by
  have h := List.reverse_take (l := l.reverse) (n := n)
  rw [List.reverse_reverse, List.length_reverse] at h
  exact h

/-! ### Concrete fixtures shared by several statements -/

/-- A configuration with a non-empty API key and the default fallback
model list of `core/config_manager.py`. -/
def cfgEx : AppConfig :=
  { apiKey := "test-key"
    availableModels := "gemini-1.0-pro,gemini-1.5-flash-latest" }

/-- A controller state holding one user record in transcript and history. -/
def uiEx : UiState :=
  { transcript := [("user", "Hello")]
    db := { clock := 1, rows := [⟨0, "user", "Hello", none⟩] }
    currentModel := some "model-a" }

/-! ### The claims -/

/-- C1: for every call to `send_query` with a non-empty prompt and a
configured valid model, if the provider response contains content parts,
the returned outcome is Success whose text is the concatenation of the
part texts in their original order (both at the `Outcome` level and as
the string `send_query` actually returns). -/
theorem c1_parts_concat (cfg : AppConfig) (configureOk : Bool)
    (prompt modelName : String) (r : GResponse)
    (hprompt : prompt ≠ "") (hmodel : modelName ≠ "") (hparts : r.parts ≠ []) :
    classifyResponseOutcome r = .success (pyConcat r.parts)
    ∧ send_query true cfg configureOk prompt modelName (.ok r)
        = (true, .ok (pyConcat r.parts)) := by
  have hp : r.parts.isEmpty = false := by
    cases hr : r.parts with
    | nil => exact absurd hr hparts
    | cons a l => rfl
  constructor
  · unfold classifyResponseOutcome
    rw [hp]
    simp
  · unfold send_query sendQueryTry
    simp only [Bool.true_eq_false, if_false, reduceCtorEq]
    unfold classifyResponse
    rw [hp]
    simp

/-- C1 witness: `send_query` on a response with parts `["Hi", " there"]`
yields success `"Hi there"`. -/
theorem c1_parts_concat_witness :
    classifyResponseOutcome ⟨["Hi", " there"], none, [], ""⟩ = .success "Hi there"
    ∧ send_query true cfgEx true "Hello" "model-a" (.ok ⟨["Hi", " there"], none, [], ""⟩)
        = (true, .ok "Hi there") := by
  have h := c1_parts_concat cfgEx true "Hello" "model-a" ⟨["Hi", " there"], none, [], ""⟩
    (by decide) (by decide) (by decide)
  exact h

/-- C2 counterexample: a response that carries a pre-generation block
reason but also content parts is classified as Success by
`core/gemini_api.py:95-96` — `response.parts` is checked before
`prompt_feedback.block_reason`, so the claim clause "regardless of whether
candidate content is also present" fails. -/
theorem c2_counterexample :
    GResponse.hasBlockReasonB ⟨["Hi"], some ⟨some "SAFETY", []⟩, [], "Hi"⟩ = true
    ∧ classifyResponseOutcome ⟨["Hi"], some ⟨some "SAFETY", []⟩, [], "Hi"⟩ = .success "Hi"
    ∧ (classifyResponseOutcome ⟨["Hi"], some ⟨some "SAFETY", []⟩, [], "Hi"⟩).isBlocked
        = false :=
  ⟨rfl, rfl, rfl⟩

/-- C2 (amended): for every provider response that carries a
pre-generation block reason and no content parts, `send_query` returns a
Blocked outcome (with the reason and safety-category/probability pairs)
and never a Success outcome. -/
theorem c2_blocked_when_no_parts (r : GResponse)
    (hparts : r.parts = []) (hbr : r.hasBlockReasonB = true) :
    classifyResponseOutcome r = .blocked r.blockReasonName r.feedbackRatings
    ∧ (classifyResponseOutcome r).isSuccess = false := by
  have h : classifyResponseOutcome r = .blocked r.blockReasonName r.feedbackRatings := by
    unfold classifyResponseOutcome
    rw [hparts, hbr]
    simp
  exact ⟨h, by rw [h]; rfl⟩

/-- C2 witness: a blocked response with no parts yields the Blocked
outcome with its reason and rating pairs. -/
theorem c2_blocked_when_no_parts_witness :
    classifyResponseOutcome
        ⟨[], some ⟨some "SAFETY", [⟨"HARM_CATEGORY_HARASSMENT", "HIGH"⟩]⟩, [], ""⟩
      = .blocked "SAFETY" [⟨"HARM_CATEGORY_HARASSMENT", "HIGH"⟩]
    ∧ (classifyResponseOutcome
        ⟨[], some ⟨some "SAFETY", [⟨"HARM_CATEGORY_HARASSMENT", "HIGH"⟩]⟩, [], ""⟩).isSuccess
      = false := by
  have h := c2_blocked_when_no_parts
    ⟨[], some ⟨some "SAFETY", [⟨"HARM_CATEGORY_HARASSMENT", "HIGH"⟩]⟩, [], ""⟩ rfl rfl
  exact h

/-- C4: the claim says a provider authorization error yields
`Failure{Auth, detail}` and clears `_genai_configured` — that is what the
handler at `core/gemini_api.py:133-138` is written to do, but the module
never binds the name `google` (`import google.generativeai as genai` binds
only `genai`), so evaluating that `except` clause raises `NameError`
instead: the flag stays `true`, no Auth failure string is returned, and
the `NameError` propagates out of `send_query`, surfacing through the
catch-all of the worker as an `error_occurred` signal. -/
theorem c4_permission_denied_name_error :
    send_query true cfgEx true "Hello" "model-a" (.error (.permissionDenied "denied"))
      = (true, .error (.nameError "google"))
    ∧ workerRun true true true cfgEx true "Hello" "model-a"
        (.error (.permissionDenied "denied"))
      = (true, some (.errorSig
          "Worker thread error: NameError: name \x27google\x27 is not defined")) :=
  ⟨rfl, rfl⟩

/-- C10: every history-store operation is total with respect to database
errors — `add_message` returns with the store unchanged, `get_history`
returns the empty list, and `clear_history` returns `false`, whenever the
underlying sqlite call raises; no sqlite exception escapes to a caller
(each model function returns a plain value, mirroring the
`except sqlite3.Error` handlers of `core/db_manager.py`). -/
theorem c10_db_errors_never_escape (db : HistoryDB) (role content : String)
    (modelUsed : Option String) (limit : Nat) (e : String) :
    add_message db role content modelUsed (some e) = db
    ∧ get_history db limit (some e) = []
    ∧ clear_history db (some e) = (db, false) :=
  ⟨rfl, rfl, rfl⟩

/-- The string `send_query` returns for a network-layer failure with
detail `"boom"` (`core/gemini_api.py:130-132`). -/
def networkErrorText : String :=
  "Network Error: Could not connect to API. Check your internet connection. Details: boom"

/-- C3: the claim says every Blocked/Stopped/Failure outcome is surfaced
as an error-role transcript entry and never persisted — but for a
network failure `send_query` returns a string starting `"Network Error:"`,
which `handle_response` (`ui/main_window.py:522`) does not recognise as an
error (it only tests the prefixes `"Error:"` and `"Blocked:"`), so the
message is displayed as a model message and persisted as a `model` history
record. -/
theorem c3_network_failure_persisted :
    workerRun true true true cfgEx true "Hello" "model-a"
        (.error (.requestException "boom"))
      = (true, some (.response networkErrorText))
    ∧ deliverEmission uiEx (some (.response networkErrorText)) none
      = { transcript := [("user", "Hello"), ("model", networkErrorText)]
          db := { clock := 2
                  rows := [⟨0, "user", "Hello", none⟩,
                           ⟨1, "model", networkErrorText, some "model-a"⟩] }
          currentModel := some "model-a" } :=
  ⟨rfl, rfl⟩

/-- C5: for every dispatched worker whose liveness flag reads false at
either checkpoint — immediately before the provider call starts, or
immediately before delivery — no emission reaches the UI thread, and
delivering no emission leaves the transcript and history untouched. -/
theorem c5_cancelled_never_delivered (aliveAtStart aliveAtDeliver configured configureOk : Bool)
    (cfg : AppConfig) (prompt modelName : String) (call : Except PyExc GResponse)
    (ui : UiState) (dbError : Option String)
    (h : aliveAtStart = false ∨ aliveAtDeliver = false) :
    (workerRun aliveAtStart aliveAtDeliver configured cfg configureOk prompt modelName call).2
      = none
    ∧ deliverEmission ui
        (workerRun aliveAtStart aliveAtDeliver configured cfg configureOk
          prompt modelName call).2 dbError
      = ui := by
  have hnone :
      (workerRun aliveAtStart aliveAtDeliver configured cfg configureOk
        prompt modelName call).2 = none := by
    unfold workerRun
    rcases h with h | h
    · rw [h]
      simp
    · by_cases h2 : aliveAtStart = false
      · rw [if_pos h2]
      · rw [if_neg h2]
        rcases hsq : send_query configured cfg configureOk prompt modelName call with ⟨c2, res⟩
        cases res <;> simp [h]
  exact ⟨hnone, by rw [hnone]; rfl⟩

/-- C5 witness: a worker whose flag was cleared before the call starts
delivers nothing and mutates nothing. -/
theorem c5_cancelled_never_delivered_witness :
    (workerRun false true true cfgEx true "Hello" "model-a"
        (.ok ⟨["Hi"], none, [], "Hi"⟩)).2 = none
    ∧ deliverEmission uiEx
        (workerRun false true true cfgEx true "Hello" "model-a"
          (.ok ⟨["Hi"], none, [], "Hi"⟩)).2 none
      = uiEx :=
  c5_cancelled_never_delivered false true true true cfgEx "Hello" "model-a"
    (.ok ⟨["Hi"], none, [], "Hi"⟩) uiEx none (Or.inl rfl)

/-- C6 counterexample: a response whose first candidate finish reason is
`MAX_TOKENS` but which still carries content parts is classified as
Success by `core/gemini_api.py:95-96` (the parts check precedes the
finish-reason check), with no truncation marker appended — not Stopped. -/
theorem c6_counterexample :
    (classifyResponseOutcome
        ⟨["truncated answer"], none, [⟨"MAX_TOKENS", []⟩], "truncated answer"⟩)
      = .success "truncated answer"
    ∧ (classifyResponseOutcome
        ⟨["truncated answer"], none, [⟨"MAX_TOKENS", []⟩], "truncated answer"⟩).isStopped
      = false :=
  ⟨rfl, rfl⟩

/-- C6 (amended): for every provider response with no content parts and no
block reason whose first candidate finish reason is `MAX_TOKENS`,
`send_query` yields Stopped with truncated text `response.text` plus the
truncation marker — non-empty and ending in the marker; for every other
abnormal finish reason it yields Stopped with no truncated text. -/
theorem c6_stopped_truncation (r : GResponse) (c : CandidateR) (cs : List CandidateR)
    (hparts : r.parts = []) (hnb : r.hasBlockReasonB = false)
    (hc : r.candidates = c :: cs) :
    (c.finishReason = "MAX_TOKENS" →
      classifyResponseOutcome r
          = .stopped "MAX_TOKENS" c.safetyRatings (some (r.text ++ truncationMarker))
        ∧ (r.text ++ truncationMarker).data ≠ []
        ∧ truncationMarker.data <:+ (r.text ++ truncationMarker).data)
    ∧ (c.finishReason ≠ "STOP" → c.finishReason ≠ "MAX_TOKENS" →
      classifyResponseOutcome r = .stopped c.finishReason c.safetyRatings none) := by
  have hbase : classifyResponseOutcome r
      = (if c.finishReason = "STOP" then .failure .unexpected emptyResponseText
         else if c.finishReason = "MAX_TOKENS" then
           .stopped "MAX_TOKENS" c.safetyRatings (some (r.text ++ truncationMarker))
         else .stopped c.finishReason c.safetyRatings none) := by
    unfold classifyResponseOutcome
    rw [hparts, hnb, hc]
    simp
  constructor
  · intro hmax
    refine ⟨?_, ?_, ?_⟩
    · rw [hbase, hmax, if_neg (by decide), if_pos rfl]
    · rw [String.data_append]
      simp [truncationMarker]
    · rw [String.data_append]
      exact List.suffix_append _ _
  · intro h1 h2
    rw [hbase, if_neg h1, if_neg h2]

/-- C6 witness: concrete Stopped outcomes for the `MAX_TOKENS` and
`SAFETY` finish reasons. -/
theorem c6_stopped_truncation_witness :
    classifyResponseOutcome ⟨[], none, [⟨"MAX_TOKENS", []⟩], "truncated"⟩
      = .stopped "MAX_TOKENS" [] (some ("truncated" ++ truncationMarker))
    ∧ truncationMarker.data <:+ ("truncated" ++ truncationMarker).data
    ∧ classifyResponseOutcome ⟨[], none, [⟨"SAFETY", []⟩], ""⟩
      = .stopped "SAFETY" [] none := by
  have h2 := c6_stopped_truncation ⟨[], none, [⟨"MAX_TOKENS", []⟩], "truncated"⟩
    ⟨"MAX_TOKENS", []⟩ [] rfl rfl rfl
  have h3 := c6_stopped_truncation ⟨[], none, [⟨"SAFETY", []⟩], ""⟩
    ⟨"SAFETY", []⟩ [] rfl rfl rfl
  exact ⟨(h2.1 rfl).1, (h2.1 rfl).2.2, h3.2 (by decide) (by decide)⟩

theorem listModelsFetch_ne_nil (cfg : AppConfig) (fetch : Except PyExc (List GModel)) :
    listModelsFetch cfg fetch ≠ [] := by
  unfold listModelsFetch
  cases fetch with
  | ok ms =>
    by_cases h : (geminiModelCache ms).isEmpty
    · simp [h]
    · simp only [h, if_false, Bool.false_eq_true]
      intro hc
      rw [hc] at h
      exact h rfl
  | error e =>
    by_cases h : (if (if cfg.availableModels.data.isEmpty then []
        else pySplitComma cfg.availableModels).isEmpty then
          ["gemini-1.5-flash-latest"]
        else if cfg.availableModels.data.isEmpty then []
        else pySplitComma cfg.availableModels).isEmpty
    · simp only [h, if_true]
      simp
    · simp only [h, if_false, Bool.false_eq_true]
      intro hc
      rw [hc] at h
      exact h rfl

theorem listModelsFetch_ok (cfg : AppConfig) (ms : List GModel)
    (hne : geminiModelCache ms ≠ []) :
    listModelsFetch cfg (.ok ms) = geminiModelCache ms := by
  unfold listModelsFetch
  simp [hne]

theorem listModelsFetch_error_cfg (cfg : AppConfig) (e : PyExc)
    (hne : cfg.availableModels.data ≠ []) :
    listModelsFetch cfg (.error e) = pySplitComma cfg.availableModels := by
  have h1 : cfg.availableModels.data.isEmpty = false := by simp [hne]
  have h2 : (pySplitComma cfg.availableModels).isEmpty = false := by
    simp [pySplitComma_ne_nil]
  unfold listModelsFetch
  simp [h1, h2]

theorem listModelsFetch_error_default (cfg : AppConfig) (e : PyExc)
    (hemp : cfg.availableModels.data = []) :
    listModelsFetch cfg (.error e) = ["gemini-1.5-flash-latest"] := by
  unfold listModelsFetch
  simp [hemp]

/-- C7 counterexample: on a successful fetch that returns one model which
supports content generation but is not named with the `models/gemini-`
prefix, `list_models` returns the error placeholder
`["Error: No suitable Gemini models found"]` — not the ascending-sorted
list of fetched identifiers supporting content generation (which would be
that model identifier), because `core/gemini_api.py:55-57` additionally
filters on the `models/gemini-` prefix and substitutes a placeholder when
the filtered list is empty. -/
theorem c7_counterexample :
    (list_models true cfgEx true
        (.ok [⟨"models/chat-bison-001", ["generateContent"]⟩])).2
      = ["Error: No suitable Gemini models found"]
    ∧ (list_models true cfgEx true
        (.ok [⟨"models/chat-bison-001", ["generateContent"]⟩])).2
      ≠ ["chat-bison-001"]
    ∧ (list_models true cfgEx true
        (.ok [⟨"models/chat-bison-001", ["generateContent"]⟩])).2
      ≠ ["models/chat-bison-001"] :=
  ⟨rfl, by decide, by decide⟩

/-- C7 (amended): `list_models` never returns an empty sequence; on a
successful fetch it returns the ascending-sorted list of fetched
identifiers that support content generation and carry the
`models/gemini-` prefix (stripped), unless that list is empty, in which
case it returns a single-element placeholder; on any fetch failure it
returns the comma-split configured fallback list, and if the configured
value is empty, the single-element hardcoded default. -/
theorem c7_list_models_fallbacks (configured : Bool) (cfg : AppConfig)
    (configureOk : Bool) (fetch : Except PyExc (List GModel)) :
    (list_models configured cfg configureOk fetch).2 ≠ []
    ∧ (∀ ms, fetch = .ok ms → geminiModelCache ms ≠ [] →
        (list_models true cfg configureOk fetch).2 = geminiModelCache ms)
    ∧ (∀ ms : List GModel, (geminiModelCache ms).Pairwise (fun a b => strLeB a b = true))
    ∧ (∀ e, fetch = .error e → cfg.availableModels.data ≠ [] →
        (list_models true cfg configureOk fetch).2 = pySplitComma cfg.availableModels)
    ∧ (∀ e, fetch = .error e → cfg.availableModels.data = [] →
        (list_models true cfg configureOk fetch).2 = ["gemini-1.5-flash-latest"]) := by
  have hfetchTrue : (list_models true cfg configureOk fetch).2 = listModelsFetch cfg fetch := by
    unfold list_models
    simp
  refine ⟨?_, ?_, ?_, ?_, ?_⟩
  · unfold list_models
    by_cases hcfg : configured = false
    · rw [if_pos hcfg]
      rcases hg : configure_genai cfg configureOk with ⟨c2, ok⟩
      cases ok
      · simp
      · simpa using listModelsFetch_ne_nil cfg fetch
    · rw [if_neg hcfg]
      simpa using listModelsFetch_ne_nil cfg fetch
  · intro ms hms hne
    rw [hfetchTrue, hms]
    exact listModelsFetch_ok cfg ms hne
  · intro ms
    exact pairwise_sortLe strLeB_total strLeB_trans _
  · intro e he hne
    rw [hfetchTrue, he]
    exact listModelsFetch_error_cfg cfg e hne
  · intro e he hemp
    rw [hfetchTrue, he]
    exact listModelsFetch_error_default cfg e hemp

/-- C7 witness: a successful fetch keeps only the gemini generate-content
models, strips the prefix and sorts ascending; a failed fetch falls back
to the comma-split configured list. -/
theorem c7_list_models_fallbacks_witness :
    (list_models true cfgEx true
        (.ok [⟨"models/gemini-1.5-pro", ["generateContent"]⟩,
              ⟨"models/gemini-1.0-pro", ["generateContent", "countTokens"]⟩,
              ⟨"models/embedding-001", ["embedContent"]⟩])).2
      = ["gemini-1.0-pro", "gemini-1.5-pro"]
    ∧ (list_models true cfgEx true (.error (.otherError "TimeoutError" "x"))).2
      = ["gemini-1.0-pro", "gemini-1.5-flash-latest"] := by
  have h1 := (c7_list_models_fallbacks true cfgEx true
    (.ok [⟨"models/gemini-1.5-pro", ["generateContent"]⟩,
          ⟨"models/gemini-1.0-pro", ["generateContent", "countTokens"]⟩,
          ⟨"models/embedding-001", ["embedContent"]⟩])).2.1 _ rfl (by decide)
  have h2 := (c7_list_models_fallbacks true cfgEx true
    (.error (.otherError "TimeoutError" "x"))).2.2.2.1 _ rfl (by decide)
  refine ⟨h1.trans (by decide), h2.trans (by decide)⟩

/-- C8: after any sequence of appends, `get_history` with a limit returns
at most `limit` records, namely the most recent ones in oldest-first
order (the suffix of the insertion-ordered rows); and a successful
`clear_history` returns `true` and a subsequent `get_history` returns the
empty sequence. -/
theorem c8_history_append_list_clear (ops : List MsgIn) (limit : Nat) (db : HistoryDB) :
    (get_history (applyAppends ops) limit none).length ≤ limit
    ∧ get_history (applyAppends ops) limit none
        = (applyAppends ops).rows.drop ((applyAppends ops).rows.length - limit)
    ∧ get_history (clear_history db none).1 limit none = []
    ∧ (clear_history db none).2 = true := by
  have hts := tsSound_applyAppends ops
  have hsort := sortLe_tsDesc_of_pairwise (applyAppends ops).rows hts.1
  have hmain : get_history (applyAppends ops) limit none
      = (applyAppends ops).rows.drop ((applyAppends ops).rows.length - limit) := by
    unfold get_history
    rw [hsort]
    exact reverse_take_reverse _ _
  refine ⟨?_, hmain, ?_, rfl⟩
  · rw [hmain, List.length_drop]
    omega
  · simp [clear_history, get_history, sortLe]

/-- C9: a send request whose prompt strips to the empty string performs no
dispatch, shows no warning, and leaves the controller state, the history
store and the credential flag untouched — the lifecycle stays Idle. -/
theorem c9_empty_prompt_noop (ui : UiState) (configured configureOk : Bool)
    (cfg : AppConfig) (rawInput : String) (h : (pyStrip rawInput).data = []) :
    send_message ui configured cfg configureOk rawInput
      = { ui := ui, configured := configured, dispatched := none, warned := false } := by
  unfold send_message
  simp [h]

/-- C9 witness: a whitespace-only prompt is a no-op. -/
theorem c9_empty_prompt_noop_witness :
    send_message uiEx true cfgEx true "  \t "
      = { ui := uiEx, configured := true, dispatched := none, warned := false } :=
  c9_empty_prompt_noop uiEx true true cfgEx "  \t " (by decide)

end Geminary
